import Mathlib

/-!
Shallow embedding of the `regelwerk` home-automation daemon (Go): the rule
engine (`rules.go`), the device/timer/dusk machinery (`main.go`) and the
NOAA solar julian-day arithmetic (`sun.go`), together with proofs settling
the frozen specification claims.

Conventions of the embedding:
* Go `map[string]any` JSON payloads become association lists of `JVal`.
* Go `time.Time` becomes `Instant`: the calendar fields the program reads
  (`Year`, `Month`, `Day`, `Hour`) plus an absolute coordinate `abs` giving
  the `Before`/`After` order.  All times in the program are in the single
  local zone, so the `Location()` component of `isSameDay` is dropped.
* Pointer identity of `*timer` instances is modelled by a numeric `id`
  allocated from `Regelwerk.nextId`; the per-instance `fired` one-shot
  latch (an `atomic.Uint32` CAS) is the set `Regelwerk.firedIds` of ids
  whose latch has been taken.
* Goroutine-issued switch commands (`go r.setSwitchState(..)`) are
  collected in an output list of payload state strings.
* IEEE-754 float64 arithmetic of `sun.go` is embedded exactly over `ℚ`:
  every `+ - * /` is correctly rounded to 53-bit round-half-even precision
  by `f64round` (the unbounded-exponent model, exact for the magnitudes
  involved), and decimal literals are taken to the nearest double.
-/

/-- JSON scalar values as produced by `encoding/json` into `any`:
booleans, strings, numbers (float64, embedded as `ℚ`) and `null`. -/
inductive JVal
  | jbool (b : Bool)
  | jstr (s : String)
  | jnum (q : ℚ)
  | jnull
deriving DecidableEq

/-- Go `reflect.TypeOf(attr) == reflect.TypeOf(d.state)`: the two dynamic
kinds coincide (two `nil` interfaces also compare equal). -/
def JVal.sameKind : JVal → JVal → Bool
  | .jbool _, .jbool _ => true
  | .jstr _, .jstr _ => true
  | .jnum _, .jnum _ => true
  | .jnull, .jnull => true
  | _, _ => false

/-- A decoded JSON payload (`map[string]any`). -/
def Payload := List (String × JVal)

instance : DecidableEq Payload := by
  unfold Payload
  infer_instance

/-- Map lookup on a payload. -/
def mapGet (m : Payload) (k : String) : Option JVal :=
  (m.find? (fun e => e.1 == k)).map (fun e => e.2)

/-- Go `getMapValue` (`main.go`): retrieves a string value from a map;
empty string if the key is missing or the value is not a string. -/
def getMapValue (m : Payload) (key : String) : String :=
  match mapGet m key with
  | some (JVal.jstr s) => s
  | _ => ""

/-- Go `struct device` (`main.go`): one named sensor/actuator.
`lastUpdated` is declared in the source but never written after the
zero-value initialisation. -/
structure Device where
  id : String
  topic : String
  stateAttr : String
  state : JVal
  lastUpdated : ℕ
deriving DecidableEq

/-- Error outcomes of `device.DecodePayload`: the JSON payload failed to
parse, or the configured state attribute is absent. -/
inductive DecodeErr
  | payloadDecodeError
  | missingAttr
deriving DecidableEq

instance (a b : Except DecodeErr (Payload × Bool × Device)) : Decidable (a = b) :=
  match a, b with
  | Except.error x, Except.error y =>
    if h : x = y then isTrue (by rw [h]) else isFalse (fun hc => h (by cases hc; rfl))
  | Except.error _, Except.ok _ => isFalse (fun hc => Except.noConfusion hc)
  | Except.ok _, Except.error _ => isFalse (fun hc => Except.noConfusion hc)
  | Except.ok x, Except.ok y =>
    if h : x = y then isTrue (by rw [h]) else isFalse (fun hc => h (by cases hc; rfl))

/-- Go `device.DecodePayload` (`main.go`).  `raw` is the result of
`decodePayload(msg)`: `none` when `json.Unmarshal` failed.  Returns the
payload, the `changed` flag and the (possibly state-updated) device.
The source never touches `lastUpdated`. -/
def DecodePayload (d : Device) (raw : Option Payload) :
    Except DecodeErr (Payload × Bool × Device) :=
  match raw with
  | none => Except.error DecodeErr.payloadDecodeError
  | some payload =>
    if d.stateAttr ≠ "" then
      match mapGet payload d.stateAttr with
      | none => Except.error DecodeErr.missingAttr
      | some attr =>
        if attr ≠ d.state ∧ JVal.sameKind attr d.state then
          Except.ok (payload, true, { d with state := attr })
        else
          Except.ok (payload, false, d)
    else
      Except.ok (payload, false, d)

/-- Go `struct timer` (`main.go`): a named session handle.  `id` models
the pointer identity of the heap instance; `primary = some dur` models a
running `t` countdown (after `Reset(dur)`), `none` a stopped one;
`expiry = some dur` models an attached running expiry `time.Timer`.
The `fired` latch lives in `Regelwerk.firedIds`, keyed by `id`, because
it must survive removal of the instance from the registry. -/
structure Timer where
  id : ℕ
  primary : Option ℕ
  expiry : Option ℕ
deriving DecidableEq

/-- Go `time.Time`, restricted to the API surface the program uses. -/
structure Instant where
  year : ℤ
  month : ℤ
  day : ℤ
  hour : ℤ
  abs : ℤ
deriving DecidableEq

/-- Go `t1.Before(t2)`. -/
def tsBefore (a b : Instant) : Bool := a.abs < b.abs

/-- Go `t1.After(t2)`. -/
def tsAfter (a b : Instant) : Bool := b.abs < a.abs

/-- Go `isSameDay` (`main.go`): same calendar day (the `Location()`
comparison is dropped: the program only handles local-zone times). -/
def isSameDay (t1 t2 : Instant) : Bool :=
  t1.year == t2.year && t1.month == t2.month && t1.day == t2.day

/-- Go `struct regelwerk` (`main.go`): the engine state.  `timers` is the
named-timer registry (`map[string]*timer`), kept as an association list;
`devices` merges the `devices`/`devicesById` maps (both index the same
`*device` instances, by `topic` and by `id`).  `nextId`/`firedIds` model
timer-instance allocation and the per-instance fired latches.
`motionOffDelay`/`motionExpiry` are the motion-session durations read by
`rules.go`. -/
structure Regelwerk where
  lat : ℚ
  lng : ℚ
  currDate : Instant
  sunrise : Instant
  sunset : Instant
  offDelay : ℕ
  motionOffDelay : ℕ
  motionExpiry : ℕ
  sensorId : String
  switchId : String
  timers : List (String × Timer)
  devices : List Device
  nextId : ℕ
  firedIds : List ℕ
deriving DecidableEq

/-- Registry lookup `r.timers[name]`. -/
def lookupTimer (r : Regelwerk) (name : String) : Option Timer :=
  (r.timers.find? (fun e => e.1 == name)).map (fun e => e.2)

/-- In-place mutation of the registered instance for `name` (Go mutates
through the `*timer` stored in the map). -/
def replaceTimer (l : List (String × Timer)) (name : String) (tm : Timer) :
    List (String × Timer) :=
  l.map (fun e => if e.1 == name then (e.1, tm) else e)

/-- Go `regelwerk.LookupDevice` (`main.go`): `r.devicesById[id]`. -/
def LookupDevice (r : Regelwerk) (id : String) : Option Device :=
  r.devices.find? (fun d => d.id == id)

/-- State read `r.LookupDevice(id).state`.  A missing device would be a
nil dereference in Go; devices are registered once at startup, so the
`jnull` default is never reached on the program's own states. -/
def deviceStateOf (r : Regelwerk) (id : String) : JVal :=
  match LookupDevice r id with
  | some d => d.state
  | none => JVal.jnull

/-- In-place device state write (`r.LookupDevice(id).state = v`). -/
def setDeviceState (r : Regelwerk) (id : String) (v : JVal) : Regelwerk :=
  { r with devices :=
      r.devices.map (fun d => if d.id == id then { d with state := v } else d) }

/-- Write-back of a device mutated by `DecodePayload` (in Go the map holds
the very pointer that was mutated). -/
def storeDevice (r : Regelwerk) (d : Device) : Regelwerk :=
  { r with devices := r.devices.map (fun e => if e.id == d.id then d else e) }

/-- Device lookup by MQTT topic: `r.devices[topic]`. -/
def lookupDeviceByTopic (r : Regelwerk) (topic : String) : Option Device :=
  r.devices.find? (fun d => d.topic == topic)

/-- Go `regelwerk.AddTimer` (`main.go`): allocates a fresh dormant timer
instance (`time.AfterFunc(time.Hour, ..)` immediately stopped), then
registers it only if no timer exists under `name`; returns `none` and
leaves the registry untouched if one already exists. -/
def AddTimer (r : Regelwerk) (name : String) : Option Timer × Regelwerk :=
  let tm : Timer := { id := r.nextId, primary := none, expiry := none }
  let r1 := { r with nextId := r.nextId + 1 }
  match lookupTimer r1 name with
  | none => (some tm, { r1 with timers := (name, tm) :: r1.timers })
  | some _ => (none, r1)

/-- Go `regelwerk.AddTimerWithExpiry` (`main.go`): `AddTimer`, then, if a
timer was created, attaches a running expiry `time.AfterFunc(expiry, ..)`
to that same instance. -/
def AddTimerWithExpiry (r : Regelwerk) (name : String) (expiry : ℕ) :
    Option Timer × Regelwerk :=
  match AddTimer r name with
  | (some tm, r1) =>
    let tm2 := { tm with expiry := some expiry }
    (some tm2, { r1 with timers := replaceTimer r1.timers name tm2 })
  | (none, r1) => (none, r1)

/-- Go `regelwerk.StartTimer` (`main.go`): `t.t.Reset(dur)` if the timer
exists; returns whether it was found. -/
def StartTimer (r : Regelwerk) (name : String) (dur : ℕ) : Bool × Regelwerk :=
  match lookupTimer r name with
  | none => (false, r)
  | some tm =>
    (true, { r with timers := replaceTimer r.timers name { tm with primary := some dur } })

/-- Go `regelwerk.StopTimer` (`main.go`): `t.t.Stop()` if found, returning
the instance; the expiry countdown keeps running. -/
def StopTimer (r : Regelwerk) (name : String) : Option Timer × Regelwerk :=
  match lookupTimer r name with
  | none => (none, r)
  | some tm =>
    let tm2 := { tm with primary := none }
    (some tm2, { r with timers := replaceTimer r.timers name tm2 })

/-- Go `regelwerk.DestroyTimer` (`main.go`): stops both countdowns and
removes the entry; returns whether one existed. -/
def DestroyTimer (r : Regelwerk) (name : String) : Bool × Regelwerk :=
  match lookupTimer r name with
  | none => (false, r)
  | some _ =>
    (true, { r with timers := r.timers.eraseP (fun e => e.1 == name) })

/-- Go `regelwerk.NowIsDusk` (`main.go`).  `ts` stands for `time.Now()`.
`sunCalc ts rising` stands for `calcTimeAtSunAngle(ts, rising, 96, r.lat,
r.lng)`: the solar computation is transcendental float arithmetic with no
exact semantics to embed, so it is passed as an oracle parameter — every
claim about `NowIsDusk` is settled for all values of `sunCalc`. -/
def NowIsDusk (sunCalc : Instant → Bool → Instant) (r : Regelwerk) (ts : Instant) :
    Bool × Regelwerk :=
  let isDusk := (19 ≤ ts.hour) ∨ (ts.hour < 7)
  if r.lat ≠ 0 ∧ r.lng ≠ 0 then
    let r1 :=
      if ¬ (isSameDay r.currDate ts = true) then
        { r with sunrise := sunCalc ts true, sunset := sunCalc ts false, currDate := ts }
      else r
    ((tsBefore ts r1.sunrise || tsAfter ts r1.sunset : Bool), r1)
  else
    ((decide isDusk : Bool), r)

/-- Go `regelwerk.handleTimer` (`rules.go`): on timer completion send the
turn-off command; a forced expiry of the motion timer additionally resets
the motion device state so a stuck sensor re-triggers. -/
def handleTimer (r : Regelwerk) (name : String) (expired : Bool) :
    Regelwerk × List String :=
  if name = "contact" ∨ name = "motion" then
    let r1 := if name = "motion" ∧ expired = true then setDeviceState r "motion" (JVal.jbool false) else r
    (r1, ["OFF"])
  else
    (r, [])

/-- Go `regelwerk.mkTimerFunc` body (`main.go`), run for the instance
`tmId` registered (at creation time) under `name`, with `expired` telling
whether this is the expiry closure.  The `fired.CompareAndSwap(0, 1)`
one-shot latch is `tmId ∈ firedIds`; on success it runs `handleTimer` and
then removes the entry from the registry only if the registry still holds
that exact instance (`r.timers[name] == tm`). -/
def mkTimerFunc (r : Regelwerk) (name : String) (expired : Bool) (tmId : ℕ) :
    Regelwerk × List String :=
  if tmId ∈ r.firedIds then (r, [])
  else
    let r1 := { r with firedIds := tmId :: r.firedIds }
    let p := handleTimer r1 name expired
    match lookupTimer p.1 name with
    | some tm =>
      if tm.id = tmId then
        ({ p.1 with timers := p.1.timers.eraseP (fun e => e.1 == name) }, p.2)
      else p
    | none => p

/-- Go `regelwerk.handleDeviceEvent` (`rules.go`): runs on every report of
the switch device; the `"single_right"` action is the manual override.
Note the Go short-circuit `DestroyTimer("contact") || DestroyTimer("motion")`:
the motion timer is destroyed only when no contact timer existed. -/
def handleDeviceEvent (r : Regelwerk) (d : Device) (payload : Payload) :
    Regelwerk × List String :=
  if d.id = "switch" then
    if getMapValue payload "action" = "single_right" then
      let p1 := DestroyTimer r "contact"
      if p1.1 = true then (p1.2, [])
      else ((DestroyTimer p1.2 "motion").2, [])
    else (r, [])
  else (r, [])

/-- Go `regelwerk.handleDeviceChangedEvent` (`rules.go`), with the Go
short-circuit conditions unfolded into nested branches so that the
side-effecting order (`StopTimer`, then possibly `LookupDevice` /
`NowIsDusk`) is preserved exactly. -/
def handleDeviceChangedEvent (sunCalc : Instant → Bool → Instant) (now : Instant)
    (r : Regelwerk) (d : Device) (_payload : Payload) : Regelwerk × List String :=
  if d.id = "contact" then
    if d.state ≠ JVal.jbool true then
      -- door opened
      let p1 := StopTimer r "contact"
      match p1.1 with
      | some _ => (p1.2, [])
      | none =>
        let p2 := StopTimer p1.2 "motion"
        match p2.1 with
        | some _ =>
          -- converting motion->contact session
          let r3 := (DestroyTimer p2.2 "motion").2
          let r4 := (AddTimer r3 "contact").2
          (r4, ["ON"])
        | none =>
          if deviceStateOf p2.2 "switch" ≠ JVal.jstr "ON" then
            let p3 := NowIsDusk sunCalc p2.2 now
            if p3.1 = true then
              let r4 := (AddTimer p3.2 "contact").2
              (r4, ["ON"])
            else (p3.2, [])
          else (p2.2, [])
    else
      -- door closed, start countdown timer if any
      ((StartTimer r "contact" r.offDelay).2, [])
  else if d.id = "motion" then
    if d.state = JVal.jbool true then
      -- motion detected
      let p1 := StopTimer r "motion"
      match p1.1 with
      | some _ => (p1.2, [])
      | none =>
        if deviceStateOf p1.2 "switch" ≠ JVal.jstr "ON" then
          let p2 := NowIsDusk sunCalc p1.2 now
          if p2.1 = true then
            let r3 := (AddTimerWithExpiry p2.2 "motion" p2.2.motionExpiry).2
            (r3, ["ON"])
          else (p2.2, [])
        else (p1.2, [])
    else
      -- no more motion, start countdown timer if any
      ((StartTimer r "motion" r.motionOffDelay).2, [])
  else (r, [])

/-- Go `regelwerk.handleMqtt` (`main.go`): topic filtering, payload
ingestion through `DecodePayload`, then the unconditional and the
change-only rule handlers.  `raw` is `none` when `json.Unmarshal` fails. -/
def handleMqtt (sunCalc : Instant → Bool → Instant) (now : Instant)
    (r : Regelwerk) (fullTopic : String) (raw : Option Payload) :
    Regelwerk × List String :=
  if ¬ (String.isPrefixOf "zigbee2mqtt/" fullTopic = true) then (r, [])
  else
    let topic := fullTopic.drop ("zigbee2mqtt/".length)
    if topic.endsWith "/set" || topic.endsWith "/get" ||
        String.isPrefixOf "bridge/" topic then (r, [])
    else
      match lookupDeviceByTopic r topic with
      | none => (r, [])
      | some dev =>
        match DecodePayload dev raw with
        | Except.error _ => (r, [])
        | Except.ok (payload, changed, dev2) =>
          let r1 := storeDevice r dev2
          let p1 := handleDeviceEvent r1 dev2 payload
          if changed = true then
            let p2 := handleDeviceChangedEvent sunCalc now p1.1 dev2 payload
            (p2.1, p1.2 ++ p2.2)
          else p1

/-- One operation on the timer registry, for stating the registry
invariant over arbitrary operation sequences. -/
inductive TimerOp
  | add (name : String)
  | addWithExpiry (name : String) (dur : ℕ)
  | start (name : String) (dur : ℕ)
  | stop (name : String)
  | destroy (name : String)
  | fire (name : String) (expired : Bool) (tmId : ℕ)

/-- State transition of a single registry operation (outputs discarded). -/
def applyTimerOp (r : Regelwerk) : TimerOp → Regelwerk
  | .add n => (AddTimer r n).2
  | .addWithExpiry n dur => (AddTimerWithExpiry r n dur).2
  | .start n dur => (StartTimer r n dur).2
  | .stop n => (StopTimer r n).2
  | .destroy n => (DestroyTimer r n).2
  | .fire n e i => (mkTimerFunc r n e i).1

/-- Registry well-formedness: at most one timer per name. -/
def timersWF (r : Regelwerk) : Prop :=
  (r.timers.map Prod.fst).Nodup


/-- An unnormalised fraction `num / den` with positive denominator: the
value space for the exact float64 embedding of `sun.go`.  Plain `ℤ`
arithmetic is used throughout so every value is kernel-computable. -/
structure Frac where
  num : ℤ
  den : ℤ
deriving DecidableEq

/-- Equality of fractions as rational numbers (cross multiplication). -/
def Frac.qeq (a b : Frac) : Prop := a.num * b.den = b.num * a.den

instance : DecidableEq Frac := by
  intro a b
  cases a
  cases b
  exact decEq _ _

instance (a b : Frac) : Decidable (Frac.qeq a b) := by
  unfold Frac.qeq
  infer_instance

/-- Fraction addition. -/
def Frac.add (a b : Frac) : Frac := ⟨a.num * b.den + b.num * a.den, a.den * b.den⟩

/-- Fraction subtraction. -/
def Frac.sub (a b : Frac) : Frac := ⟨a.num * b.den - b.num * a.den, a.den * b.den⟩

/-- Fraction multiplication. -/
def Frac.mul (a b : Frac) : Frac := ⟨a.num * b.num, a.den * b.den⟩

/-- Fraction division, re-establishing the positive denominator. -/
def Frac.div (a b : Frac) : Frac :=
  let n := a.num * b.den
  let d := a.den * b.num
  if d < 0 then ⟨-n, -d⟩ else ⟨n, d⟩

/-- Fraction negation. -/
def Frac.neg (a : Frac) : Frac := ⟨-a.num, a.den⟩

/-- Strict order on fractions with positive denominators. -/
def Frac.blt (a b : Frac) : Bool := a.num * b.den < b.num * a.den

/-- Floor of a fraction (the denominator is positive, so floored integer
division of the numerator is exact). -/
def Frac.floor (a : Frac) : ℤ := Int.fdiv a.num a.den

/-- Base-two logarithm of a natural number, by explicit fuel so that the
kernel can evaluate it (`Nat.log2` itself is well-founded recursion). -/
def natLog2F : ℕ → ℕ → ℕ
  | 0, _ => 0
  | f + 1, n => if n ≤ 1 then 0 else natLog2F f (n / 2) + 1

/-- Base-two logarithm: largest `k` with `2 ^ k ≤ n`, and `0` for `n ≤ 1`. -/
def natLog2 (n : ℕ) : ℕ := natLog2F n n

/-- Integer power of two as a fraction, for negative exponents too. -/
def pow2 (e : ℤ) : Frac :=
  if 0 ≤ e then ⟨2 ^ e.toNat, 1⟩ else ⟨1, 2 ^ (-e).toNat⟩

/-- Largest `e` with `2 ^ e ≤ a`, for `a > 0`: the binary exponent of a
float64 holding `a`. -/
def floorLog2 (a : Frac) : ℤ :=
  let d : ℤ := (natLog2 a.num.natAbs : ℤ) - (natLog2 a.den.natAbs : ℤ)
  if a.blt (pow2 d) = true then d - 1 else d

/-- Round a fraction to the nearest integer, ties to the even neighbour
(the IEEE-754 default rounding). -/
def roundHalfEven (a : Frac) : ℤ :=
  let f := a.floor
  let t := 2 * (a.num - f * a.den)
  if t < a.den then f
  else if a.den < t then f + 1
  else if f % 2 = 0 then f else f + 1

/-- Correct rounding of a positive fraction to 53 significant bits. -/
def f64roundPos (a : Frac) : Frac :=
  let e := floorLog2 a - 52
  let p := pow2 e
  ⟨roundHalfEven (a.div p) * p.num, p.den⟩

/-- Correct rounding of a fraction to IEEE-754 binary64 precision: 53
significant bits, round half to even, unbounded exponent (exact for the
magnitudes arising in `sun.go`, far from overflow and subnormals). -/
def f64round (a : Frac) : Frac :=
  if a.num = 0 then ⟨0, 1⟩
  else if 0 < a.num then f64roundPos a
  else Frac.neg (f64roundPos a.neg)

/-- float64 addition. -/
def fadd (a b : Frac) : Frac := f64round (a.add b)

/-- float64 subtraction. -/
def fsub (a b : Frac) : Frac := f64round (a.sub b)

/-- float64 multiplication. -/
def fmul (a b : Frac) : Frac := f64round (a.mul b)

/-- float64 division. -/
def fdiv (a b : Frac) : Frac := f64round (a.div b)

/-- Go `math.Floor`: exact whenever the result magnitude is below `2^53`,
which holds throughout `julianDay`. -/
def ffloor (a : Frac) : Frac := ⟨a.floor, 1⟩

/-- The float64 denoted by the decimal literal `num / den` in the Go
source (constants are converted to the nearest double). -/
def flit (num : ℤ) (den : ℤ) : Frac := f64round ⟨num, den⟩

/-- Embedding of an integer into the float64 values (`float64(n)` is exact
for the magnitudes involved). -/
def fint (n : ℤ) : Frac := ⟨n, 1⟩

/-- Go `makeDate` (`sun_test.go`): midnight local time of a calendar day. -/
def makeDate (yy mm dd : ℤ) : Instant :=
  { year := yy, month := mm, day := dd, hour := 0, abs := 0 }

/-- Go `julianDay` (`sun.go`), with every float64 operation correctly
rounded via `f64round` and evaluation order as in the source
(`year / 100` is Go integer division, truncation toward zero). -/
def julianDay (t : Instant) : Frac :=
  let y := if t.month ≤ 2 then t.year - 1 else t.year
  let m := if t.month ≤ 2 then t.month + 12 else t.month
  let A : Frac := ffloor (fint (Int.tdiv y 100))
  let B : Frac := fadd (fsub (fint 2) A) (ffloor (fdiv A (fint 4)))
  fsub
    (fadd
      (fadd
        (fadd (ffloor (fmul (flit 36525 100) (fint (y + 4716))))
          (ffloor (fmul (flit 306001 10000) (fint (m + 1)))))
        (fint t.day))
      B)
    (flit 15245 10)

/-- Go `julianCentury` (`sun.go`): `(jd - 2451545.) / 36525.` in float64. -/
def julianCentury (jd : Frac) : Frac :=
  fdiv (fsub jd (flit 2451545 1)) (flit 36525 1)

/-- Contact sensor device as registered at startup, after the door has
reported open (`state = false`). -/
def contactDev : Device :=
  { id := "contact", topic := "door-topic", stateAttr := "contact",
    state := JVal.jbool false, lastUpdated := 0 }

/-- Switch device as registered at startup. -/
def switchDev : Device :=
  { id := "switch", topic := "sw-topic", stateAttr := "state_right",
    state := JVal.jstr "OFF", lastUpdated := 0 }

/-- Switch device after the light has been turned on. -/
def switchDevOn : Device :=
  { switchDev with state := JVal.jstr "ON" }

/-- A dormant contact-session timer instance. -/
def tmC : Timer := { id := 0, primary := none, expiry := none }

/-- A paused motion-session timer instance (expiry still attached). -/
def tmM : Timer := { id := 1, primary := none, expiry := some 60 }

/-- A sample instant: noon of 2020-01-01. -/
def instNoon : Instant := { year := 2020, month := 1, day := 1, hour := 12, abs := 1000 }

/-- A sample instant: 20:00 of 2020-01-01 (inside the fallback window). -/
def instEvening : Instant := { year := 2020, month := 1, day := 1, hour := 20, abs := 1000 }

/-- A sun oracle whose sunrise is far in the past and sunset far in the
future relative to the sample instants. -/
def sunCalcWide : Instant → Bool → Instant :=
  fun _ rising =>
    if rising then { year := 2020, month := 1, day := 1, hour := 7, abs := 0 }
    else { year := 2020, month := 1, day := 1, hour := 18, abs := 1000000 }

/-- Base engine state: no timers, both devices registered, no coordinate
configured. -/
def rBase : Regelwerk :=
  { lat := 0, lng := 0, currDate := instNoon, sunrise := instNoon, sunset := instNoon,
    offDelay := 15, motionOffDelay := 10, motionExpiry := 60,
    sensorId := "door-topic", switchId := "sw-topic",
    timers := [], devices := [contactDev, switchDev], nextId := 2, firedIds := [] }

/-- Engine state holding both a contact and a motion timer. -/
def rBoth : Regelwerk :=
  { rBase with timers := [("contact", tmC), ("motion", tmM)] }

/-- Engine state holding only a (paused) motion timer, with the light on. -/
def rMotionOnly : Regelwerk :=
  { rBase with timers := [("motion", tmM)], devices := [contactDev, switchDevOn] }

/-- Engine state with only the equator-adjacent coordinate configured:
latitude 0, longitude 22. -/
def rEquator : Regelwerk := { rBase with lng := 22 }

/-- Engine state holding only a contact timer. -/
def rContactOnly : Regelwerk := { rBase with timers := [("contact", tmC)] }

/-- Contact sensor device after the door has reported closed. -/
def contactDevClosed : Device := { contactDev with state := JVal.jbool true }

/-- Engine state with a full nonzero coordinate configured. -/
def rCoord : Regelwerk := { rBase with lat := 22, lng := 44 }

/-- A sample sequence of registry operations. -/
def opsSample : List TimerOp :=
  [TimerOp.add "x", TimerOp.destroy "contact", TimerOp.fire "motion" true 1,
    TimerOp.stop "x", TimerOp.addWithExpiry "motion" 60, TimerOp.start "x" 15]

/-- An empty report payload. -/
def pEmpty : Payload := []

/-- The manual-override payload of the switch report. -/
def pSingleRight : Payload := [("action", JVal.jstr "single_right")]

set_option maxRecDepth 10000

/-- C8: the Julian-day conversion returns exactly 2458849.5 for 2020-01-01
and exactly 2459580.5 for 2022-01-01, and the Julian-century conversion of
those values returns exactly the float64 values denoted by
0.19998631074606435 and 0.22 respectively (the regression vectors of
`TestJulianDay`; equalities are of the computed binary64 values). -/
theorem claim8_julian_regression :
    Frac.qeq (julianDay (makeDate 2020 1 1)) ⟨4917699, 2⟩
    ∧ Frac.qeq (julianDay (makeDate 2022 1 1)) ⟨4919161, 2⟩
    ∧ Frac.qeq (julianCentury (julianDay (makeDate 2020 1 1)))
        (flit 19998631074606435 (10 ^ 17))
    ∧ Frac.qeq (julianCentury (julianDay (makeDate 2022 1 1))) (flit 22 100) := by
  decide

/-- Keys absent from an association list are not found. -/
theorem find?_eq_none_keys (n : String) (l : List (String × Timer))
    (h : n ∉ l.map Prod.fst) : l.find? (fun e => e.1 == n) = none := by
  rw [List.find?_eq_none]
  intro e he hc
  rw [beq_iff_eq] at hc
  exact h (hc ▸ List.mem_map_of_mem Prod.fst he)

/-- Erasing a key from a duplicate-free association list removes it
completely. -/
theorem find?_eraseP_self (n : String) (l : List (String × Timer))
    (h : (l.map Prod.fst).Nodup) :
    (l.eraseP (fun e => e.1 == n)).find? (fun e => e.1 == n) = none := by
  induction l with
  | nil => rfl
  | cons a t ih =>
    simp only [List.map_cons, List.nodup_cons] at h
    by_cases han : a.1 = n
    · rw [List.eraseP_cons_of_pos (by simp [han])]
      exact find?_eq_none_keys n t (han ▸ h.1)
    · rw [List.eraseP_cons_of_neg (by simp [han]), List.find?_cons_of_neg _ (by simp [han])]
      exact ih h.2

/-- Erasing one key leaves lookups of other keys unchanged. -/
theorem find?_eraseP_ne (m n : String) (hmn : m ≠ n) (l : List (String × Timer)) :
    (l.eraseP (fun e => e.1 == n)).find? (fun e => e.1 == m) =
      l.find? (fun e => e.1 == m) := by
  induction l with
  | nil => rfl
  | cons a t ih =>
    by_cases han : a.1 = n
    · have ham : ¬ a.1 = m := fun hc => hmn ((hc ▸ han : m = n))
      rw [List.eraseP_cons_of_pos (by simp [han]), List.find?_cons_of_neg _ (by simp [ham])]
    · by_cases ham : a.1 = m
      · rw [List.eraseP_cons_of_neg (by simp [han]), List.find?_cons_of_pos _ (by simp [ham]),
          List.find?_cons_of_pos _ (by simp [ham])]
      · rw [List.eraseP_cons_of_neg (by simp [han]), List.find?_cons_of_neg _ (by simp [ham]),
          List.find?_cons_of_neg _ (by simp [ham])]
        exact ih

/-- Erasure preserves duplicate-freeness of the keys. -/
theorem nodup_keys_eraseP (n : String) (l : List (String × Timer))
    (h : (l.map Prod.fst).Nodup) :
    ((l.eraseP (fun e => e.1 == n)).map Prod.fst).Nodup :=
  ((l.eraseP_sublist).map Prod.fst).nodup h

/-- In-place instance replacement does not change the key list. -/
theorem keys_replaceTimer (l : List (String × Timer)) (n : String) (tm : Timer) :
    (replaceTimer l n tm).map Prod.fst = l.map Prod.fst := by
  unfold replaceTimer
  induction l with
  | nil => rfl
  | cons a t ih =>
    simp only [List.map_cons, ih]
    by_cases hc : a.1 = n <;> simp [hc]

/-- Replacing the instance under a key rewrites exactly that lookup. -/
theorem find?_replaceTimer_self (l : List (String × Timer)) (n : String) (tm : Timer) :
    (replaceTimer l n tm).find? (fun e => e.1 == n) =
      (l.find? (fun e => e.1 == n)).map (fun e => (e.1, tm)) := by
  unfold replaceTimer
  induction l with
  | nil => rfl
  | cons a t ih =>
    by_cases hc : a.1 = n
    · simp only [List.map_cons]
      rw [if_pos (by simp [hc]), List.find?_cons_of_pos _ (by simp [hc]),
        List.find?_cons_of_pos _ (by simp [hc])]
      rfl
    · simp only [List.map_cons]
      rw [if_neg (by simp [hc]), List.find?_cons_of_neg _ (by simp [hc]),
        List.find?_cons_of_neg _ (by simp [hc])]
      exact ih

/-- Replacing the instance under one key leaves other lookups unchanged. -/
theorem find?_replaceTimer_ne (m n : String) (hmn : m ≠ n)
    (l : List (String × Timer)) (tm : Timer) :
    (replaceTimer l n tm).find? (fun e => e.1 == m) = l.find? (fun e => e.1 == m) := by
  unfold replaceTimer
  induction l with
  | nil => rfl
  | cons a t ih =>
    by_cases han : a.1 = n
    · have ham : ¬ a.1 = m := fun hc => hmn ((hc ▸ han : m = n))
      simp only [List.map_cons]
      rw [if_pos (by simp [han]), List.find?_cons_of_neg _ (by simp [ham]),
        List.find?_cons_of_neg _ (by simp [ham])]
      exact ih
    · by_cases ham : a.1 = m
      · simp only [List.map_cons]
        rw [if_neg (by simp [han]), List.find?_cons_of_pos _ (by simp [ham]),
          List.find?_cons_of_pos _ (by simp [ham])]
      · simp only [List.map_cons]
        rw [if_neg (by simp [han]), List.find?_cons_of_neg _ (by simp [ham]),
          List.find?_cons_of_neg _ (by simp [ham])]
        exact ih

/-- Destroying an absent timer is a strict no-op. -/
theorem DestroyTimer_absent (r : Regelwerk) (n : String)
    (h : lookupTimer r n = none) : DestroyTimer r n = (false, r) := by
  unfold DestroyTimer
  rw [h]

/-- Destroying a present timer erases its registry entry. -/
theorem DestroyTimer_present (r : Regelwerk) (n : String) (tm : Timer)
    (h : lookupTimer r n = some tm) :
    DestroyTimer r n =
      (true, { r with timers := r.timers.eraseP (fun e => e.1 == n) }) := by
  unfold DestroyTimer
  rw [h]

/-- After erasing a name from a well-formed registry, that name has no
timer. -/
theorem lookupTimer_erase_self (r : Regelwerk) (n : String) (h : timersWF r) :
    lookupTimer { r with timers := r.timers.eraseP (fun e => e.1 == n) } n = none := by
  show (((r.timers.eraseP (fun e => e.1 == n)).find? (fun e => e.1 == n)).map _) = none
  rw [find?_eraseP_self n r.timers h]
  rfl

/-- Erasing one name leaves the other names' timers unchanged. -/
theorem lookupTimer_erase_ne (r : Regelwerk) (m n : String) (hmn : m ≠ n) :
    lookupTimer { r with timers := r.timers.eraseP (fun e => e.1 == n) } m =
      lookupTimer r m := by
  show (((r.timers.eraseP (fun e => e.1 == n)).find? (fun e => e.1 == m)).map _) = _
  rw [find?_eraseP_ne m n hmn r.timers]
  rfl

/-- C1 (counterexample): with both a contact and a motion timer registered,
a `"single_right"` switch report leaves the motion timer in the registry —
the Go `||` short-circuits after `DestroyTimer("contact")` succeeds — so
the claim that afterwards no Timer exists under either name is false. -/
theorem claim1_counterexample :
    lookupTimer rBoth "contact" = some tmC
    ∧ lookupTimer rBoth "motion" = some tmM
    ∧ getMapValue pSingleRight "action" = "single_right"
    ∧ lookupTimer (handleDeviceEvent rBoth switchDev pSingleRight).1 "motion" = some tmM := by
  decide

/-- C1 (amended): on a switch report carrying the `"single_right"` action,
the handler destroys the contact Timer; the motion Timer is destroyed only
when no contact Timer existed (otherwise it is left untouched); no switch
command is emitted; and when neither Timer exists the state is unchanged
(idempotence on absence). -/
theorem claim1_amended (r : Regelwerk) (d : Device) (p : Payload)
    (hwf : timersWF r) (hid : d.id = "switch")
    (hact : getMapValue p "action" = "single_right") :
    lookupTimer (handleDeviceEvent r d p).1 "contact" = none
    ∧ (lookupTimer r "contact" = none →
        lookupTimer (handleDeviceEvent r d p).1 "motion" = none)
    ∧ (lookupTimer r "contact" ≠ none →
        lookupTimer (handleDeviceEvent r d p).1 "motion" = lookupTimer r "motion")
    ∧ (handleDeviceEvent r d p).2 = []
    ∧ (lookupTimer r "contact" = none → lookupTimer r "motion" = none →
        (handleDeviceEvent r d p).1 = r) := by
  rcases hc : lookupTimer r "contact" with _ | tm
  · rcases hm : lookupTimer r "motion" with _ | tm2
    · have hres : handleDeviceEvent r d p = (r, []) := by
        unfold handleDeviceEvent
        rw [hid, hact]
        simp [DestroyTimer_absent r "contact" hc, DestroyTimer_absent r "motion" hm]
      refine ⟨?_, fun _ => ?_, fun hne => absurd rfl hne, ?_, fun _ _ => ?_⟩
      · rw [hres]; exact hc
      · rw [hres]; exact hm
      · rw [hres]
      · rw [hres]
    · have hres : handleDeviceEvent r d p =
          ({ r with timers := r.timers.eraseP (fun e => e.1 == "motion") }, []) := by
        unfold handleDeviceEvent
        rw [hid, hact]
        simp [DestroyTimer_absent r "contact" hc, DestroyTimer_present r "motion" tm2 hm]
      refine ⟨?_, fun _ => ?_, fun hne => absurd rfl hne, ?_, fun _ hm2 => Option.noConfusion hm2⟩
      · rw [hres]
        exact (lookupTimer_erase_ne r "contact" "motion" (by decide)).trans hc
      · rw [hres]
        exact lookupTimer_erase_self r "motion" hwf
      · rw [hres]
  · have hres : handleDeviceEvent r d p =
        ({ r with timers := r.timers.eraseP (fun e => e.1 == "contact") }, []) := by
      unfold handleDeviceEvent
      rw [hid, hact]
      simp [DestroyTimer_present r "contact" tm hc]
    refine ⟨?_, fun hcn => Option.noConfusion hcn, fun _ => ?_, ?_, fun hcn _ => Option.noConfusion hcn⟩
    · rw [hres]
      exact lookupTimer_erase_self r "contact" hwf
    · rw [hres]
      exact lookupTimer_erase_ne r "motion" "contact" (by decide)
    · rw [hres]

/-- C1 witness: the amended theorem applied to the concrete two-timer
state. -/
theorem claim1_amended_witness :
    lookupTimer (handleDeviceEvent rBoth switchDev pSingleRight).1 "contact" = none
    ∧ (lookupTimer rBoth "contact" = none →
        lookupTimer (handleDeviceEvent rBoth switchDev pSingleRight).1 "motion" = none)
    ∧ (lookupTimer rBoth "contact" ≠ none →
        lookupTimer (handleDeviceEvent rBoth switchDev pSingleRight).1 "motion" =
          lookupTimer rBoth "motion")
    ∧ (handleDeviceEvent rBoth switchDev pSingleRight).2 = []
    ∧ (lookupTimer rBoth "contact" = none → lookupTimer rBoth "motion" = none →
        (handleDeviceEvent rBoth switchDev pSingleRight).1 = rBoth) :=
  claim1_amended rBoth switchDev pSingleRight (by unfold timersWF; decide) (by decide) (by decide)

/-- Stopping an absent timer is a strict no-op. -/
theorem StopTimer_absent (r : Regelwerk) (n : String)
    (h : lookupTimer r n = none) : StopTimer r n = (none, r) := by
  unfold StopTimer
  rw [h]

/-- Stopping a present timer halts its primary countdown in place. -/
theorem StopTimer_present (r : Regelwerk) (n : String) (tm : Timer)
    (h : lookupTimer r n = some tm) :
    StopTimer r n = (some { tm with primary := none },
      { r with timers := replaceTimer r.timers n { tm with primary := none } }) := by
  unfold StopTimer
  rw [h]

/-- Starting an absent timer reports failure and changes nothing. -/
theorem StartTimer_absent (r : Regelwerk) (n : String) (dur : ℕ)
    (h : lookupTimer r n = none) : StartTimer r n dur = (false, r) := by
  unfold StartTimer
  rw [h]

/-- Starting a present timer resets its primary countdown in place. -/
theorem StartTimer_present (r : Regelwerk) (n : String) (dur : ℕ) (tm : Timer)
    (h : lookupTimer r n = some tm) :
    StartTimer r n dur = (true,
      { r with timers := replaceTimer r.timers n { tm with primary := some dur } }) := by
  unfold StartTimer
  rw [h]

/-- Replacing the instance under a name rewrites exactly that lookup. -/
theorem lookupTimer_replace_self (r : Regelwerk) (n : String) (tm : Timer) :
    lookupTimer { r with timers := replaceTimer r.timers n tm } n =
      (lookupTimer r n).map (fun _ => tm) := by
  show ((replaceTimer r.timers n tm).find? (fun e => e.1 == n)).map (fun e => e.2) =
    ((r.timers.find? (fun e => e.1 == n)).map (fun e => e.2)).map (fun _ => tm)
  rw [find?_replaceTimer_self]
  cases r.timers.find? (fun e => e.1 == n) <;> rfl

/-- Replacing the instance under one name leaves other lookups unchanged. -/
theorem lookupTimer_replace_ne (r : Regelwerk) (m n : String) (tm : Timer)
    (hmn : m ≠ n) :
    lookupTimer { r with timers := replaceTimer r.timers n tm } m = lookupTimer r m := by
  show ((replaceTimer r.timers n tm).find? _).map _ = _
  rw [find?_replaceTimer_ne m n hmn]
  rfl

/-- Adding a timer under a free name registers a fresh dormant instance. -/
theorem AddTimer_absent (r : Regelwerk) (n : String)
    (h : lookupTimer r n = none) :
    AddTimer r n = (some { id := r.nextId, primary := none, expiry := none },
      { r with nextId := r.nextId + 1,
               timers := (n, { id := r.nextId, primary := none, expiry := none }) :: r.timers }) := by
  unfold AddTimer
  show (match lookupTimer { r with nextId := r.nextId + 1 } n with
    | none => _ | some _ => _) = _
  rw [show lookupTimer { r with nextId := r.nextId + 1 } n = lookupTimer r n from rfl, h]

/-- Adding a timer under a taken name allocates but does not register. -/
theorem AddTimer_present (r : Regelwerk) (n : String) (tm : Timer)
    (h : lookupTimer r n = some tm) :
    AddTimer r n = (none, { r with nextId := r.nextId + 1 }) := by
  unfold AddTimer
  show (match lookupTimer { r with nextId := r.nextId + 1 } n with
    | none => _ | some _ => _) = _
  rw [show lookupTimer { r with nextId := r.nextId + 1 } n = lookupTimer r n from rfl, h]

/-- Lookup in a state with replaced timer list (definitional). -/
theorem lookupTimer_set_timers (r : Regelwerk) (l : List (String × Timer)) (n : String) :
    lookupTimer { r with timers := l } n = (l.find? (fun e => e.1 == n)).map (fun e => e.2) :=
  rfl

/-- Lookup in a state with replaced timer list and allocator
(definitional). -/
theorem lookupTimer_set_timers2 (r : Regelwerk) (l : List (String × Timer)) (x : ℕ)
    (n : String) :
    lookupTimer { r with nextId := x, timers := l } n =
      (l.find? (fun e => e.1 == n)).map (fun e => e.2) :=
  rfl

/-- StopTimer rewrites exactly the stopped name's lookup. -/
theorem lookupTimer_StopTimer_self (r : Regelwerk) (n : String) :
    lookupTimer (StopTimer r n).2 n =
      (lookupTimer r n).map (fun tm => { tm with primary := none }) := by
  rcases h : lookupTimer r n with _ | tm
  · rw [StopTimer_absent r n h, h]
    rfl
  · rw [StopTimer_present r n tm h, lookupTimer_replace_self, h]
    rfl

/-- StopTimer leaves other names' lookups unchanged. -/
theorem lookupTimer_StopTimer_other (r : Regelwerk) (n m : String) (hmn : m ≠ n) :
    lookupTimer (StopTimer r n).2 m = lookupTimer r m := by
  rcases h : lookupTimer r n with _ | tm
  · rw [StopTimer_absent r n h]
  · rw [StopTimer_present r n tm h]
    exact lookupTimer_replace_ne r m n _ hmn

/-- StartTimer rewrites exactly the started name's lookup. -/
theorem lookupTimer_StartTimer_self (r : Regelwerk) (n : String) (dur : ℕ) :
    lookupTimer (StartTimer r n dur).2 n =
      (lookupTimer r n).map (fun tm => { tm with primary := some dur }) := by
  rcases h : lookupTimer r n with _ | tm
  · rw [StartTimer_absent r n dur h, h]
    rfl
  · rw [StartTimer_present r n dur tm h, lookupTimer_replace_self, h]
    rfl

/-- StartTimer leaves other names' lookups unchanged. -/
theorem lookupTimer_StartTimer_other (r : Regelwerk) (n m : String) (dur : ℕ)
    (hmn : m ≠ n) :
    lookupTimer (StartTimer r n dur).2 m = lookupTimer r m := by
  rcases h : lookupTimer r n with _ | tm
  · rw [StartTimer_absent r n dur h]
  · rw [StartTimer_present r n dur tm h]
    exact lookupTimer_replace_ne r m n _ hmn

/-- DestroyTimer removes the destroyed name's timer (in a well-formed
registry). -/
theorem lookupTimer_DestroyTimer_self (r : Regelwerk) (n : String) (hwf : timersWF r) :
    lookupTimer (DestroyTimer r n).2 n = none := by
  rcases h : lookupTimer r n with _ | tm
  · rw [DestroyTimer_absent r n h]
    exact h
  · rw [DestroyTimer_present r n tm h]
    exact lookupTimer_erase_self r n hwf

/-- DestroyTimer leaves other names' lookups unchanged. -/
theorem lookupTimer_DestroyTimer_other (r : Regelwerk) (n m : String) (hmn : m ≠ n) :
    lookupTimer (DestroyTimer r n).2 m = lookupTimer r m := by
  rcases h : lookupTimer r n with _ | tm
  · rw [DestroyTimer_absent r n h]
  · rw [DestroyTimer_present r n tm h]
    exact lookupTimer_erase_ne r m n hmn

/-- AddTimer under a free name registers the fresh dormant instance. -/
theorem lookupTimer_AddTimer_self (r : Regelwerk) (n : String)
    (h : lookupTimer r n = none) :
    lookupTimer (AddTimer r n).2 n =
      some { id := r.nextId, primary := none, expiry := none } := by
  rw [AddTimer_absent r n h, lookupTimer_set_timers2,
    List.find?_cons_of_pos _ (by simp)]
  rfl

/-- AddTimer leaves other names' lookups unchanged. -/
theorem lookupTimer_AddTimer_other (r : Regelwerk) (n m : String) (hmn : m ≠ n) :
    lookupTimer (AddTimer r n).2 m = lookupTimer r m := by
  rcases h : lookupTimer r n with _ | tm
  · rw [AddTimer_absent r n h, lookupTimer_set_timers2,
      List.find?_cons_of_neg _ (by simp only [beq_iff_eq]; exact Ne.symm hmn)]
    rfl
  · rw [AddTimer_present r n tm h]
    rfl

/-- StopTimer touches only the timer registry. -/
theorem StopTimer_frame (r : Regelwerk) (n : String) :
    (StopTimer r n).2.devices = r.devices ∧ (StopTimer r n).2.currDate = r.currDate
    ∧ (StopTimer r n).2.sunrise = r.sunrise ∧ (StopTimer r n).2.sunset = r.sunset
    ∧ (StopTimer r n).2.nextId = r.nextId ∧ (StopTimer r n).2.firedIds = r.firedIds := by
  unfold StopTimer
  rcases lookupTimer r n with _ | tm <;> exact ⟨rfl, rfl, rfl, rfl, rfl, rfl⟩

/-- StartTimer touches only the timer registry. -/
theorem StartTimer_frame (r : Regelwerk) (n : String) (dur : ℕ) :
    (StartTimer r n dur).2.devices = r.devices
    ∧ (StartTimer r n dur).2.currDate = r.currDate
    ∧ (StartTimer r n dur).2.sunrise = r.sunrise
    ∧ (StartTimer r n dur).2.sunset = r.sunset
    ∧ (StartTimer r n dur).2.nextId = r.nextId
    ∧ (StartTimer r n dur).2.firedIds = r.firedIds := by
  unfold StartTimer
  rcases lookupTimer r n with _ | tm <;> exact ⟨rfl, rfl, rfl, rfl, rfl, rfl⟩

/-- DestroyTimer touches only the timer registry. -/
theorem DestroyTimer_frame (r : Regelwerk) (n : String) :
    (DestroyTimer r n).2.devices = r.devices ∧ (DestroyTimer r n).2.currDate = r.currDate
    ∧ (DestroyTimer r n).2.sunrise = r.sunrise ∧ (DestroyTimer r n).2.sunset = r.sunset
    ∧ (DestroyTimer r n).2.nextId = r.nextId
    ∧ (DestroyTimer r n).2.firedIds = r.firedIds := by
  unfold DestroyTimer
  rcases lookupTimer r n with _ | tm <;> exact ⟨rfl, rfl, rfl, rfl, rfl, rfl⟩

/-- AddTimer touches only the timer registry and the allocator. -/
theorem AddTimer_frame (r : Regelwerk) (n : String) :
    (AddTimer r n).2.devices = r.devices ∧ (AddTimer r n).2.currDate = r.currDate
    ∧ (AddTimer r n).2.sunrise = r.sunrise ∧ (AddTimer r n).2.sunset = r.sunset
    ∧ (AddTimer r n).2.firedIds = r.firedIds := by
  rcases h : lookupTimer r n with _ | tm
  · rw [AddTimer_absent r n h]
    exact ⟨rfl, rfl, rfl, rfl, rfl⟩
  · rw [AddTimer_present r n tm h]
    exact ⟨rfl, rfl, rfl, rfl, rfl⟩

/-- A name that looks up to nothing is not among the registry keys. -/
theorem not_mem_keys_of_lookup_none (r : Regelwerk) (n : String)
    (h : lookupTimer r n = none) : n ∉ r.timers.map Prod.fst := by
  intro hmem
  rcases List.mem_map.mp hmem with ⟨e, he, hfst⟩
  rcases hf : r.timers.find? (fun x => x.1 == n) with _ | e2
  · rw [List.find?_eq_none] at hf
    exact hf e he (by simp [hfst])
  · unfold lookupTimer at h
    rw [hf] at h
    exact Option.noConfusion h

/-- StopTimer preserves the at-most-one-timer-per-name invariant. -/
theorem timersWF_StopTimer (r : Regelwerk) (n : String) (h : timersWF r) :
    timersWF (StopTimer r n).2 := by
  rcases hl : lookupTimer r n with _ | tm
  · rw [StopTimer_absent r n hl]
    exact h
  · rw [StopTimer_present r n tm hl]
    unfold timersWF at h ⊢
    rw [keys_replaceTimer]
    exact h

/-- StartTimer preserves the invariant. -/
theorem timersWF_StartTimer (r : Regelwerk) (n : String) (dur : ℕ) (h : timersWF r) :
    timersWF (StartTimer r n dur).2 := by
  rcases hl : lookupTimer r n with _ | tm
  · rw [StartTimer_absent r n dur hl]
    exact h
  · rw [StartTimer_present r n dur tm hl]
    unfold timersWF at h ⊢
    rw [keys_replaceTimer]
    exact h

/-- DestroyTimer preserves the invariant. -/
theorem timersWF_DestroyTimer (r : Regelwerk) (n : String) (h : timersWF r) :
    timersWF (DestroyTimer r n).2 := by
  rcases hl : lookupTimer r n with _ | tm
  · rw [DestroyTimer_absent r n hl]
    exact h
  · rw [DestroyTimer_present r n tm hl]
    exact nodup_keys_eraseP n r.timers h

/-- AddTimer preserves the invariant. -/
theorem timersWF_AddTimer (r : Regelwerk) (n : String) (h : timersWF r) :
    timersWF (AddTimer r n).2 := by
  rcases hl : lookupTimer r n with _ | tm
  · rw [AddTimer_absent r n hl]
    unfold timersWF at h ⊢
    show (n :: r.timers.map Prod.fst).Nodup
    exact List.nodup_cons.mpr ⟨not_mem_keys_of_lookup_none r n hl, h⟩
  · rw [AddTimer_present r n tm hl]
    exact h

/-- AddTimerWithExpiry preserves the invariant. -/
theorem timersWF_AddTimerWithExpiry (r : Regelwerk) (n : String) (dur : ℕ)
    (h : timersWF r) : timersWF (AddTimerWithExpiry r n dur).2 := by
  rcases hA : AddTimer r n with ⟨tmOpt, r1⟩
  have hwf1 : timersWF r1 := by
    have h2 := timersWF_AddTimer r n h
    rw [hA] at h2
    exact h2
  unfold AddTimerWithExpiry
  rw [hA]
  cases tmOpt with
  | none => exact hwf1
  | some tm =>
    show timersWF { r1 with timers := replaceTimer r1.timers n _ }
    unfold timersWF at hwf1 ⊢
    rw [keys_replaceTimer]
    exact hwf1

/-- The timer-fire rule handler never touches the timer registry. -/
theorem handleTimer_timers (r : Regelwerk) (n : String) (e : Bool) :
    (handleTimer r n e).1.timers = r.timers := by
  unfold handleTimer setDeviceState
  split
  · split <;> rfl
  · rfl

/-- The timer-fire rule handler touches only the device table. -/
theorem handleTimer_frame (r : Regelwerk) (n : String) (e : Bool) :
    (handleTimer r n e).1.timers = r.timers
    ∧ (handleTimer r n e).1.firedIds = r.firedIds
    ∧ (handleTimer r n e).1.nextId = r.nextId
    ∧ (handleTimer r n e).1.currDate = r.currDate := by
  unfold handleTimer setDeviceState
  split
  · split <;> exact ⟨rfl, rfl, rfl, rfl⟩
  · exact ⟨rfl, rfl, rfl, rfl⟩

/-- The completion callback preserves the invariant. -/
theorem timersWF_mkTimerFunc (r : Regelwerk) (n : String) (e : Bool) (i : ℕ)
    (h : timersWF r) : timersWF (mkTimerFunc r n e i).1 := by
  unfold mkTimerFunc
  by_cases hf : i ∈ r.firedIds
  · rw [if_pos hf]
    exact h
  · rw [if_neg hf]
    have hwf1 : timersWF (handleTimer { r with firedIds := i :: r.firedIds } n e).1 := by
      unfold timersWF
      rw [handleTimer_timers]
      exact h
    rcases hl : lookupTimer (handleTimer { r with firedIds := i :: r.firedIds } n e).1 n
      with _ | tm
    · simp only [hl]
      exact hwf1
    · by_cases hid : tm.id = i
      · simp only [hl, if_pos hid]
        exact nodup_keys_eraseP n _ hwf1
      · simp only [hl, if_neg hid]
        exact hwf1

/-- C2 (counterexample): with a paused motion timer and no contact timer,
the door-open transition converts the session but the handler output is
`["ON"]` — a turn-on command IS issued again, because
`go r.setSwitchState("ON")` runs in the conversion branch too — refuting
"without issuing a second turn-on switch command". -/
theorem claim2_counterexample :
    lookupTimer rMotionOnly "contact" = none
    ∧ lookupTimer rMotionOnly "motion" = some tmM
    ∧ (handleDeviceChangedEvent sunCalcWide instNoon rMotionOnly contactDev pEmpty).2 = ["ON"]
    ∧ lookupTimer (handleDeviceChangedEvent sunCalcWide instNoon rMotionOnly contactDev pEmpty).1
        "motion" = none
    ∧ (lookupTimer (handleDeviceChangedEvent sunCalcWide instNoon rMotionOnly contactDev pEmpty).1
        "contact").isSome = true := by
  decide

/-- C2 (amended): on a contact transition to open while no contact Timer
exists and a motion Timer does, the engine converts the session — the
motion Timer is destroyed and a fresh dormant contact Timer is created in
its place — and it DOES issue one more turn-on command: the output is
exactly `["ON"]`.  The device table and the dusk cache are untouched. -/
theorem claim2_amended (sunCalc : Instant → Bool → Instant) (now : Instant)
    (r : Regelwerk) (d : Device) (p : Payload) (tm : Timer)
    (hwf : timersWF r) (hid : d.id = "contact") (hstate : d.state ≠ JVal.jbool true)
    (hc : lookupTimer r "contact" = none) (hm : lookupTimer r "motion" = some tm) :
    lookupTimer (handleDeviceChangedEvent sunCalc now r d p).1 "motion" = none
    ∧ lookupTimer (handleDeviceChangedEvent sunCalc now r d p).1 "contact" =
        some { id := r.nextId, primary := none, expiry := none }
    ∧ (handleDeviceChangedEvent sunCalc now r d p).2 = ["ON"]
    ∧ (handleDeviceChangedEvent sunCalc now r d p).1.devices = r.devices
    ∧ (handleDeviceChangedEvent sunCalc now r d p).1.currDate = r.currDate
    ∧ (handleDeviceChangedEvent sunCalc now r d p).1.sunrise = r.sunrise
    ∧ (handleDeviceChangedEvent sunCalc now r d p).1.sunset = r.sunset := by
  have h1 : StopTimer r "contact" = (none, r) := StopTimer_absent r "contact" hc
  have h2fst : (StopTimer r "motion").1 = some { tm with primary := none } := by
    rw [StopTimer_present r "motion" tm hm]
  have hres : handleDeviceChangedEvent sunCalc now r d p =
      ((AddTimer (DestroyTimer (StopTimer r "motion").2 "motion").2 "contact").2, ["ON"]) := by
    unfold handleDeviceChangedEvent
    rw [hid]
    simp [hstate, h1, h2fst]
  have hwfS : timersWF (StopTimer r "motion").2 := timersWF_StopTimer r "motion" hwf
  have hcD : lookupTimer (DestroyTimer (StopTimer r "motion").2 "motion").2 "contact" = none := by
    rw [lookupTimer_DestroyTimer_other _ "motion" "contact" (by decide),
      lookupTimer_StopTimer_other r "motion" "contact" (by decide)]
    exact hc
  have hmD : lookupTimer (DestroyTimer (StopTimer r "motion").2 "motion").2 "motion" = none :=
    lookupTimer_DestroyTimer_self _ "motion" hwfS
  refine ⟨?_, ?_, ?_, ?_, ?_, ?_, ?_⟩
  · rw [hres]
    rw [lookupTimer_AddTimer_other _ "contact" "motion" (by decide)]
    exact hmD
  · rw [hres]
    rw [lookupTimer_AddTimer_self _ "contact" hcD]
    have hn1 : (DestroyTimer (StopTimer r "motion").2 "motion").2.nextId = r.nextId := by
      rw [(DestroyTimer_frame _ "motion").2.2.2.2.1, (StopTimer_frame r "motion").2.2.2.2.1]
    rw [hn1]
  · rw [hres]
  · rw [hres]
    rw [(AddTimer_frame _ "contact").1, (DestroyTimer_frame _ "motion").1,
      (StopTimer_frame r "motion").1]
  · rw [hres]
    rw [(AddTimer_frame _ "contact").2.1, (DestroyTimer_frame _ "motion").2.1,
      (StopTimer_frame r "motion").2.1]
  · rw [hres]
    rw [(AddTimer_frame _ "contact").2.2.1, (DestroyTimer_frame _ "motion").2.2.1,
      (StopTimer_frame r "motion").2.2.1]
  · rw [hres]
    rw [(AddTimer_frame _ "contact").2.2.2.1, (DestroyTimer_frame _ "motion").2.2.2.1,
      (StopTimer_frame r "motion").2.2.2.1]

/-- C2 witness: the amended theorem applied to the concrete paused-motion
state. -/
theorem claim2_amended_witness :
    lookupTimer (handleDeviceChangedEvent sunCalcWide instNoon rMotionOnly contactDev pEmpty).1
        "motion" = none
    ∧ lookupTimer (handleDeviceChangedEvent sunCalcWide instNoon rMotionOnly contactDev pEmpty).1
        "contact" = some { id := rMotionOnly.nextId, primary := none, expiry := none }
    ∧ (handleDeviceChangedEvent sunCalcWide instNoon rMotionOnly contactDev pEmpty).2 = ["ON"]
    ∧ (handleDeviceChangedEvent sunCalcWide instNoon rMotionOnly contactDev pEmpty).1.devices =
        rMotionOnly.devices
    ∧ (handleDeviceChangedEvent sunCalcWide instNoon rMotionOnly contactDev pEmpty).1.currDate =
        rMotionOnly.currDate
    ∧ (handleDeviceChangedEvent sunCalcWide instNoon rMotionOnly contactDev pEmpty).1.sunrise =
        rMotionOnly.sunrise
    ∧ (handleDeviceChangedEvent sunCalcWide instNoon rMotionOnly contactDev pEmpty).1.sunset =
        rMotionOnly.sunset :=
  claim2_amended sunCalcWide instNoon rMotionOnly contactDev pEmpty tmM
    (by unfold timersWF; decide) (by decide) (by decide) (by decide) (by decide)

/-- C10: on a contact transition to closed the handler emits no switch
command and creates no Timer: with a contact Timer present its only effect
is restarting that Timer's primary countdown with the configured off-delay
(other names and all other state are untouched); with no contact Timer it
is a complete no-op. -/
theorem claim10_door_closed_frame (sunCalc : Instant → Bool → Instant) (now : Instant)
    (r : Regelwerk) (d : Device) (p : Payload)
    (hid : d.id = "contact") (hstate : d.state = JVal.jbool true) :
    (handleDeviceChangedEvent sunCalc now r d p).2 = []
    ∧ (handleDeviceChangedEvent sunCalc now r d p).1.devices = r.devices
    ∧ (handleDeviceChangedEvent sunCalc now r d p).1.nextId = r.nextId
    ∧ ((handleDeviceChangedEvent sunCalc now r d p).1.timers.map Prod.fst =
        r.timers.map Prod.fst)
    ∧ (lookupTimer r "contact" = none → (handleDeviceChangedEvent sunCalc now r d p).1 = r)
    ∧ (∀ tm, lookupTimer r "contact" = some tm →
        lookupTimer (handleDeviceChangedEvent sunCalc now r d p).1 "contact" =
          some { tm with primary := some r.offDelay }
        ∧ ∀ m, m ≠ "contact" →
            lookupTimer (handleDeviceChangedEvent sunCalc now r d p).1 m =
              lookupTimer r m) := by
  have hres : handleDeviceChangedEvent sunCalc now r d p =
      ((StartTimer r "contact" r.offDelay).2, []) := by
    unfold handleDeviceChangedEvent
    rw [hid]
    simp [hstate]
  refine ⟨by rw [hres], ?_, ?_, ?_, fun hl => ?_, fun tm hl => ⟨?_, fun m hm => ?_⟩⟩
  · rw [hres, (StartTimer_frame r "contact" r.offDelay).1]
  · rw [hres, (StartTimer_frame r "contact" r.offDelay).2.2.2.2.1]
  · rw [hres]
    rcases hl : lookupTimer r "contact" with _ | tm
    · rw [StartTimer_absent r "contact" r.offDelay hl]
    · rw [StartTimer_present r "contact" r.offDelay tm hl]
      exact keys_replaceTimer r.timers "contact" _
  · rw [hres, StartTimer_absent r "contact" r.offDelay hl]
  · rw [hres, lookupTimer_StartTimer_self, hl]
    rfl
  · rw [hres]
    exact lookupTimer_StartTimer_other r "contact" m r.offDelay hm

/-- C10 witness: the frame theorem applied at a concrete single-contact
state and at the no-timer base state. -/
theorem claim10_witness :
    (handleDeviceChangedEvent sunCalcWide instNoon rContactOnly contactDevClosed pEmpty).2 = []
    ∧ lookupTimer
        (handleDeviceChangedEvent sunCalcWide instNoon rContactOnly contactDevClosed pEmpty).1
        "contact" = some { tmC with primary := some rContactOnly.offDelay }
    ∧ (handleDeviceChangedEvent sunCalcWide instNoon rBase contactDevClosed pEmpty).1 = rBase :=
  ⟨(claim10_door_closed_frame sunCalcWide instNoon rContactOnly contactDevClosed pEmpty
      (by decide) (by decide)).1,
   ((claim10_door_closed_frame sunCalcWide instNoon rContactOnly contactDevClosed pEmpty
      (by decide) (by decide)).2.2.2.2.2 tmC (by decide)).1,
   (claim10_door_closed_frame sunCalcWide instNoon rBase contactDevClosed pEmpty
      (by decide) (by decide)).2.2.2.2.1 (by decide)⟩

/-- C3 (counterexample): with latitude 0 and longitude 22 — a coordinate
with at least one nonzero component — the dusk query still answers via the
fixed fallback window, because the code's computed path requires BOTH
components nonzero: at hour 20 it returns true and leaves the cache alone,
while the computed sunrise/sunset answer for the same oracle would be
false.  This refutes "for every other coordinate it answers using computed
sunrise/sunset". -/
theorem claim3_counterexample :
    rEquator.lat = 0 ∧ rEquator.lng = 22
    ∧ (NowIsDusk sunCalcWide rEquator instEvening).1 = true
    ∧ (NowIsDusk sunCalcWide rEquator instEvening).2 = rEquator
    ∧ (tsBefore instEvening (sunCalcWide instEvening true)
        || tsAfter instEvening (sunCalcWide instEvening false)) = false := by
  decide

/-- C3 (amended): the dusk query uses the fixed fallback window (true iff
local hour ≥ 19 or < 7) exactly when latitude = 0 OR longitude = 0; only
when both are nonzero does it answer using the cached (same-day) or
freshly recomputed sunrise/sunset, returning true iff now is before the
cached sunrise or after the cached sunset. -/
theorem claim3_amended (sunCalc : Instant → Bool → Instant) (r : Regelwerk) (ts : Instant) :
    (r.lat = 0 ∨ r.lng = 0 →
      (NowIsDusk sunCalc r ts).1 = decide (19 ≤ ts.hour ∨ ts.hour < 7)
      ∧ (NowIsDusk sunCalc r ts).2 = r)
    ∧ (r.lat ≠ 0 ∧ r.lng ≠ 0 →
      (NowIsDusk sunCalc r ts).1 =
        (tsBefore ts (NowIsDusk sunCalc r ts).2.sunrise
          || tsAfter ts (NowIsDusk sunCalc r ts).2.sunset)
      ∧ (isSameDay r.currDate ts = true → (NowIsDusk sunCalc r ts).2 = r)
      ∧ (isSameDay r.currDate ts = false →
          (NowIsDusk sunCalc r ts).2 =
            { r with sunrise := sunCalc ts true, sunset := sunCalc ts false,
                     currDate := ts })) := by
  by_cases hz : r.lat ≠ 0 ∧ r.lng ≠ 0
  · constructor
    · intro h0
      rcases h0 with h0 | h0
      · exact absurd h0 hz.1
      · exact absurd h0 hz.2
    · intro _
      by_cases hd : isSameDay r.currDate ts = true
      · have hres : NowIsDusk sunCalc r ts =
            ((tsBefore ts r.sunrise || tsAfter ts r.sunset : Bool), r) := by
          unfold NowIsDusk
          rw [if_pos hz, if_neg (by simp [hd])]
        rw [hres]
        exact ⟨rfl, fun _ => rfl, fun hf => absurd hd (by simp [hf])⟩
      · have hdf : isSameDay r.currDate ts = false := by
          cases hdd : isSameDay r.currDate ts
          · rfl
          · exact absurd hdd hd
        have hres : NowIsDusk sunCalc r ts =
            ((tsBefore ts (sunCalc ts true) || tsAfter ts (sunCalc ts false) : Bool),
              { r with sunrise := sunCalc ts true, sunset := sunCalc ts false,
                       currDate := ts }) := by
          unfold NowIsDusk
          rw [if_pos hz, if_pos (by simp [hdf])]
        rw [hres]
        exact ⟨rfl, fun ht => absurd ht hd, fun _ => rfl⟩
  · constructor
    · intro _
      have hres : NowIsDusk sunCalc r ts = (decide (19 ≤ ts.hour ∨ ts.hour < 7), r) := by
        unfold NowIsDusk
        rw [if_neg hz]
      rw [hres]
      exact ⟨rfl, rfl⟩
    · intro hnz
      exact absurd hnz hz

/-- C3 witness: the amended theorem applied at the unset coordinate and at
a fully configured coordinate. -/
theorem claim3_amended_witness :
    ((NowIsDusk sunCalcWide rBase instEvening).1 =
        decide ((19 : ℤ) ≤ instEvening.hour ∨ instEvening.hour < 7)
      ∧ (NowIsDusk sunCalcWide rBase instEvening).2 = rBase)
    ∧ (NowIsDusk sunCalcWide rCoord instEvening).1 =
        (tsBefore instEvening (NowIsDusk sunCalcWide rCoord instEvening).2.sunrise
          || tsAfter instEvening (NowIsDusk sunCalcWide rCoord instEvening).2.sunset) :=
  ⟨(claim3_amended sunCalcWide rBase instEvening).1 (Or.inl (by decide)),
   ((claim3_amended sunCalcWide rCoord instEvening).2 ⟨by decide, by decide⟩).1⟩

/-- C4 (counterexample): ingesting a differing same-kind value reports
changed = true and updates the stored state, yet the last-updated
timestamp is NOT touched — the resulting device equals the old one with
only the state replaced — so "updates both the stored state and the
last-updated timestamp" is false (no write to `lastUpdated` exists in the
program). -/
theorem claim4_counterexample :
    DecodePayload contactDevClosed (some [("contact", JVal.jbool false)]) =
      Except.ok ([("contact", JVal.jbool false)], true, contactDev)
    ∧ contactDev.lastUpdated = contactDevClosed.lastUpdated := by
  decide

/-- C4 (amended): for every payload containing the device's state
attribute, ingestion reports changed = true and updates the stored state
exactly when the new value differs and has the same dynamic kind; in every
other case (same value or type-mismatched value) it reports changed =
false and leaves the device unchanged, without crashing; the last-updated
timestamp is never written in either case. -/
theorem claim4_amended (d : Device) (pl : Payload) (v : JVal)
    (hattr : d.stateAttr ≠ "") (hget : mapGet pl d.stateAttr = some v) :
    (v ≠ d.state ∧ JVal.sameKind v d.state = true →
      DecodePayload d (some pl) = Except.ok (pl, true, { d with state := v }))
    ∧ (v = d.state ∨ JVal.sameKind v d.state = false →
      DecodePayload d (some pl) = Except.ok (pl, false, d))
    ∧ (∀ pl2 c d2, DecodePayload d (some pl) = Except.ok (pl2, c, d2) →
        d2.lastUpdated = d.lastUpdated) := by
  by_cases hcond : v ≠ d.state ∧ JVal.sameKind v d.state = true
  · have hres : DecodePayload d (some pl) = Except.ok (pl, true, { d with state := v }) := by
      unfold DecodePayload
      dsimp only
      rw [if_pos hattr, hget]
      dsimp only
      rw [if_pos hcond]
    refine ⟨fun _ => hres, fun h => ?_, fun pl2 c d2 hok => ?_⟩
    · exfalso
      rcases h with h | h
      · exact hcond.1 h
      · rw [hcond.2] at h
        exact Bool.noConfusion h
    · rw [hres] at hok
      cases hok
      rfl
  · have hres : DecodePayload d (some pl) = Except.ok (pl, false, d) := by
      unfold DecodePayload
      dsimp only
      rw [if_pos hattr, hget]
      dsimp only
      rw [if_neg hcond]
    refine ⟨fun h => absurd h hcond, fun _ => hres, fun pl2 c d2 hok => ?_⟩
    rw [hres] at hok
    cases hok
    rfl

/-- C4 witness: the amended characterisation applied to a concrete
bool-state device for a differing value, an equal value, and a
type-mismatched value. -/
theorem claim4_amended_witness :
    DecodePayload contactDevClosed (some [("contact", JVal.jbool false)]) =
      Except.ok ([("contact", JVal.jbool false)], true,
        { contactDevClosed with state := JVal.jbool false })
    ∧ DecodePayload contactDevClosed (some [("contact", JVal.jbool true)]) =
        Except.ok ([("contact", JVal.jbool true)], false, contactDevClosed)
    ∧ DecodePayload contactDevClosed (some [("contact", JVal.jstr "open")]) =
        Except.ok ([("contact", JVal.jstr "open")], false, contactDevClosed) :=
  ⟨(claim4_amended contactDevClosed [("contact", JVal.jbool false)] (JVal.jbool false)
      (by decide) (by decide)).1 (by decide),
   (claim4_amended contactDevClosed [("contact", JVal.jbool true)] (JVal.jbool true)
      (by decide) (by decide)).2.1 (Or.inl (by decide)),
   (claim4_amended contactDevClosed [("contact", JVal.jstr "open")] (JVal.jstr "open")
      (by decide) (by decide)).2.1 (Or.inr (by decide))⟩

/-- C7: an inbound report whose payload fails to decode as JSON, or whose
payload lacks the found device's configured state attribute, is dropped
with only a log message: the engine state is unchanged, no switch command
is issued, and neither the unconditional nor the change handler runs (the
returned state IS the input state). -/
theorem claim7_bad_payload_dropped (sunCalc : Instant → Bool → Instant) (now : Instant)
    (r : Regelwerk) (ft : String) (pl : Payload) (dev : Device) :
    handleMqtt sunCalc now r ft none = (r, [])
    ∧ (lookupDeviceByTopic r (ft.drop ("zigbee2mqtt/".length)) = some dev →
        dev.stateAttr ≠ "" → mapGet pl dev.stateAttr = none →
        handleMqtt sunCalc now r ft (some pl) = (r, [])) := by
  constructor
  · unfold handleMqtt
    rcases hl : lookupDeviceByTopic r (ft.drop ("zigbee2mqtt/".length)) with _ | dev2
    · simp only [hl]
      split_ifs <;> rfl
    · have hdp : DecodePayload dev2 none = Except.error DecodeErr.payloadDecodeError := rfl
      simp only [hl, hdp]
      split_ifs <;> rfl
  · intro hdev hattr hnone
    have hdp2 : DecodePayload dev (some pl) = Except.error DecodeErr.missingAttr := by
      unfold DecodePayload
      dsimp only
      rw [if_pos hattr, hnone]
    unfold handleMqtt
    simp only [hdev, hdp2]
    split_ifs <;> rfl

/-- C7 witness: the drop theorem applied to the contact device's topic
with an undecodable payload and with a payload missing the "contact"
attribute. -/
theorem claim7_witness :
    handleMqtt sunCalcWide instNoon rBase "zigbee2mqtt/door-topic" none = (rBase, [])
    ∧ handleMqtt sunCalcWide instNoon rBase "zigbee2mqtt/door-topic" (some pEmpty) =
        (rBase, []) :=
  ⟨(claim7_bad_payload_dropped sunCalcWide instNoon rBase "zigbee2mqtt/door-topic"
      pEmpty contactDev).1,
   (claim7_bad_payload_dropped sunCalcWide instNoon rBase "zigbee2mqtt/door-topic"
      pEmpty contactDev).2 (by decide) (by decide) (by decide)⟩

/-- Every single registry operation preserves the invariant. -/
theorem timersWF_applyTimerOp (r : Regelwerk) (op : TimerOp) (h : timersWF r) :
    timersWF (applyTimerOp r op) := by
  cases op with
  | add n => exact timersWF_AddTimer r n h
  | addWithExpiry n dur => exact timersWF_AddTimerWithExpiry r n dur h
  | start n dur => exact timersWF_StartTimer r n dur h
  | stop n => exact timersWF_StopTimer r n h
  | destroy n => exact timersWF_DestroyTimer r n h
  | fire n e i => exact timersWF_mkTimerFunc r n e i h

/-- Operation sequences preserve the invariant. -/
theorem timersWF_run (ops : List TimerOp) :
    ∀ r : Regelwerk, timersWF r → timersWF (ops.foldl applyTimerOp r) := by
  induction ops with
  | nil => exact fun r h => h
  | cons op rest ih => exact fun r h => ih _ (timersWF_applyTimerOp r op h)

/-- C5: over every sequence of registry operations (AddTimer,
AddTimerWithExpiry, StartTimer, StopTimer, DestroyTimer and the completion
callback's self-removal) at most one Timer exists per name; AddTimer
creates a dormant Timer when the name is free, and returns none leaving
the registry untouched when a Timer already exists. -/
theorem claim5_registry_invariant (r : Regelwerk) (ops : List TimerOp)
    (hwf : timersWF r) :
    timersWF (ops.foldl applyTimerOp r)
    ∧ (∀ n, lookupTimer r n = none →
        (AddTimer r n).1 = some { id := r.nextId, primary := none, expiry := none }
        ∧ lookupTimer (AddTimer r n).2 n =
            some { id := r.nextId, primary := none, expiry := none })
    ∧ (∀ n tm, lookupTimer r n = some tm →
        (AddTimer r n).1 = none ∧ (AddTimer r n).2.timers = r.timers) := by
  refine ⟨timersWF_run ops r hwf, fun n hn => ?_, fun n tm htm => ?_⟩
  · exact ⟨by rw [AddTimer_absent r n hn], lookupTimer_AddTimer_self r n hn⟩
  · exact ⟨by rw [AddTimer_present r n tm htm], by rw [AddTimer_present r n tm htm]⟩

/-- C5 witness: the invariant theorem applied to the two-timer state over
a concrete operation sequence, plus AddTimer's two behaviours at concrete
states. -/
theorem claim5_witness :
    timersWF (opsSample.foldl applyTimerOp rBoth)
    ∧ ((AddTimer rBase "contact").1 =
        some { id := rBase.nextId, primary := none, expiry := none }
      ∧ lookupTimer (AddTimer rBase "contact").2 "contact" =
          some { id := rBase.nextId, primary := none, expiry := none })
    ∧ ((AddTimer rBoth "contact").1 = none
      ∧ (AddTimer rBoth "contact").2.timers = rBoth.timers) :=
  ⟨(claim5_registry_invariant rBoth opsSample (by unfold timersWF; decide)).1,
   (claim5_registry_invariant rBase [] (by unfold timersWF; decide)).2.1 "contact" (by decide),
   (claim5_registry_invariant rBoth [] (by unfold timersWF; decide)).2.2 "contact" tmC
     (by decide)⟩

/-- The completion callback records its instance in the fired latch. -/
theorem mkTimerFunc_fired_mem (r : Regelwerk) (n : String) (e : Bool) (i : ℕ) :
    i ∈ (mkTimerFunc r n e i).1.firedIds := by
  unfold mkTimerFunc
  by_cases hf : i ∈ r.firedIds
  · rw [if_pos hf]
    exact hf
  · rw [if_neg hf]
    rcases hl : lookupTimer (handleTimer { r with firedIds := i :: r.firedIds } n e).1 n
      with _ | tm
    · simp only [hl]
      show i ∈ (handleTimer { r with firedIds := i :: r.firedIds } n e).1.firedIds
      rw [(handleTimer_frame _ n e).2.1]
      exact List.mem_cons_self i r.firedIds
    · by_cases hid : tm.id = i
      · simp only [hl, if_pos hid]
        show i ∈ (handleTimer { r with firedIds := i :: r.firedIds } n e).1.firedIds
        rw [(handleTimer_frame _ n e).2.1]
        exact List.mem_cons_self i r.firedIds
      · simp only [hl, if_neg hid]
        show i ∈ (handleTimer { r with firedIds := i :: r.firedIds } n e).1.firedIds
        rw [(handleTimer_frame _ n e).2.1]
        exact List.mem_cons_self i r.firedIds

/-- An already-latched instance makes the callback a strict no-op. -/
theorem mkTimerFunc_fired (r : Regelwerk) (n : String) (e : Bool) (i : ℕ)
    (hf : i ∈ r.firedIds) : mkTimerFunc r n e i = (r, []) := by
  unfold mkTimerFunc
  rw [if_pos hf]

/-- Timer lookups see through the rule handler (it never touches the
registry). -/
theorem lookupTimer_handleTimer (rX : Regelwerk) (n : String) (e : Bool) (m : String) :
    lookupTimer (handleTimer rX n e).1 m = lookupTimer rX m := by
  unfold lookupTimer
  rw [handleTimer_timers]

/-- C6: the "timer fired" completion callback never executes more than
once per Timer instance — a second invocation (the primary and expiry
deadlines racing) returns the state unchanged and emits nothing — and
after the run that fires, the instance is removed from the registry
exactly when the registry still holds that very instance; otherwise the
registry is untouched. -/
theorem claim6_fire_once (r : Regelwerk) (name nm2 : String) (e1 e2 : Bool) (tmId : ℕ) :
    mkTimerFunc (mkTimerFunc r name e1 tmId).1 nm2 e2 tmId =
      ((mkTimerFunc r name e1 tmId).1, [])
    ∧ (tmId ∈ r.firedIds → mkTimerFunc r name e1 tmId = (r, []))
    ∧ (tmId ∉ r.firedIds → lookupTimer r name = none →
        (mkTimerFunc r name e1 tmId).1.timers = r.timers)
    ∧ (tmId ∉ r.firedIds → ∀ tm, lookupTimer r name = some tm → tm.id ≠ tmId →
        (mkTimerFunc r name e1 tmId).1.timers = r.timers)
    ∧ (tmId ∉ r.firedIds → ∀ tm, lookupTimer r name = some tm → tm.id = tmId →
        (mkTimerFunc r name e1 tmId).1.timers =
          r.timers.eraseP (fun e => e.1 == name)) := by
  refine ⟨mkTimerFunc_fired _ nm2 e2 tmId (mkTimerFunc_fired_mem r name e1 tmId),
    mkTimerFunc_fired r name e1 tmId, fun hf hl => ?_, fun hf tm hl hne => ?_,
    fun hf tm hl hid => ?_⟩
  · have hl2 : lookupTimer (handleTimer { r with firedIds := tmId :: r.firedIds } name e1).1
        name = none := by
      rw [lookupTimer_handleTimer]
      exact hl
    unfold mkTimerFunc
    rw [if_neg hf]
    simp only [hl2]
    rw [handleTimer_timers]
  · have hl2 : lookupTimer (handleTimer { r with firedIds := tmId :: r.firedIds } name e1).1
        name = some tm := by
      rw [lookupTimer_handleTimer]
      exact hl
    unfold mkTimerFunc
    rw [if_neg hf]
    simp only [hl2, if_neg hne]
    rw [handleTimer_timers]
  · have hl2 : lookupTimer (handleTimer { r with firedIds := tmId :: r.firedIds } name e1).1
        name = some tm := by
      rw [lookupTimer_handleTimer]
      exact hl
    unfold mkTimerFunc
    rw [if_neg hf]
    simp only [hl2, if_pos hid]
    rw [handleTimer_timers]

/-- C6 witness: one firing of the motion timer removes it; the racing
second invocation is a strict no-op. -/
theorem claim6_witness :
    mkTimerFunc (mkTimerFunc rBoth "motion" true 1).1 "motion" false 1 =
      ((mkTimerFunc rBoth "motion" true 1).1, [])
    ∧ (mkTimerFunc rBoth "motion" true 1).1.timers =
        rBoth.timers.eraseP (fun e => e.1 == "motion") :=
  ⟨(claim6_fire_once rBoth "motion" "motion" true false 1).1,
   (claim6_fire_once rBoth "motion" "motion" true false 1).2.2.2.2 (by decide) tmM
     (by decide) (by decide)⟩
